import Mathlib

/-!
Verification of the HIPAA audit and violation-detection engine
(`backend/app/audit.py`): data model, violation classifier, event
recorder, and the query/report layer, shallowly embedded in Lean.

Timestamps are modelled as `Int` seconds of local wall-clock time
(`datetime.now()` becomes an explicit `now` argument); `timedelta`
subtraction is exact integer arithmetic.  Python truthiness on optional
strings (`if patient_id:`) is modelled by `truthy`, which is false both
for `none` and for the empty string.  The `details` dict is modelled as
an association list of string pairs, since the classifier only ever
reads the `user_patient_id` key.
-/

/-- The `AuditEventType` enumeration from `audit.py`. -/
inductive AuditEventType where
  | view_patient
  | view_health_record
  | view_chat_history
  | view_appointments
  | create_appointment
  | update_appointment
  | update_patient
  | login
  | logout
  | login_failed
  | unauthorized_access
  | bulk_data_access
  | after_hours_access
  | excessive_queries
deriving DecidableEq, Repr, Fintype

/-- Serialized string value of each event type (the `str` Enum values). -/
def AuditEventType.value : AuditEventType → String
  | .view_patient => "view_patient"
  | .view_health_record => "view_health_record"
  | .view_chat_history => "view_chat_history"
  | .view_appointments => "view_appointments"
  | .create_appointment => "create_appointment"
  | .update_appointment => "update_appointment"
  | .update_patient => "update_patient"
  | .login => "login"
  | .logout => "logout"
  | .login_failed => "login_failed"
  | .unauthorized_access => "unauthorized_access"
  | .bulk_data_access => "bulk_data_access"
  | .after_hours_access => "after_hours_access"
  | .excessive_queries => "excessive_queries"

/-- The `ViolationSeverity` enumeration from `audit.py`. -/
inductive ViolationSeverity where
  | low
  | medium
  | high
  | critical
deriving DecidableEq, Repr, Fintype

/-- Serialized string value of each severity (the `str` Enum values). -/
def ViolationSeverity.value : ViolationSeverity → String
  | .low => "low"
  | .medium => "medium"
  | .high => "high"
  | .critical => "critical"

/-- The `AuditEvent` dataclass: a single audit log entry. -/
structure AuditEvent where
  id : String
  timestamp : Int
  event_type : AuditEventType
  user_id : String
  user_email : String
  user_role : String
  resource_type : String
  resource_id : Option String
  patient_id : Option String
  ip_address : Option String
  details : List (String × String)
  is_violation : Bool
  violation_severity : Option ViolationSeverity
  violation_reason : Option String
deriving DecidableEq, Repr

/-- Python truthiness of an optional string: `None` and `""` are falsy. -/
def truthy : Option String → Bool
  | none => false
  | some s => !s.isEmpty

/-- Hour of day of a timestamp (`datetime.hour`). -/
def hourOf (t : Int) : Int := t / 3600 % 24

/-- Minute within the hour of a timestamp (`datetime.minute`). -/
def minuteOf (t : Int) : Int := t / 60 % 60

/-- Zero-pad a nonnegative number to two digits. -/
def pad2 (n : Int) : String :=
  let s := toString n.toNat
  if s.length < 2 then "0" ++ s else s

/-- `strftime` with format `HH:MM`. -/
def fmtHM (t : Int) : String := pad2 (hourOf t) ++ ":" ++ pad2 (minuteOf t)

/-- ASCII digit character for a digit value below ten. -/
def digitChar (n : Nat) : Char := Char.ofNat (48 + n)

/-- Numeric value of an ASCII digit character. -/
def digitVal (c : Char) : Nat := c.toNat - 48

/-- Fuel-driven digit expansion; the fuel always suffices when it is at
least the number itself. -/
def natDigitsGo : Nat → Nat → List Char
  | 0, n => [digitChar n]
  | fuel + 1, n =>
      if n < 10 then [digitChar n]
      else natDigitsGo fuel (n / 10) ++ [digitChar (n % 10)]

/-- Decimal digit characters of a natural number, most significant first. -/
def natDigits (n : Nat) : List Char := natDigitsGo n n

/-- Python `f"{n:06d}"`: decimal digits left-padded with zeros to width 6. -/
def pad6 (n : Nat) : String :=
  String.mk (List.replicate (6 - (natDigits n).length) '0' ++ natDigits n)

/-- Event identifier `f"AUD-{counter:06d}"` assigned by `log_event`. -/
def fmtId (n : Nat) : String := "AUD-" ++ pad6 n

/-- Configuration constant `business_hours_start` (7 AM). -/
def business_hours_start : Int := 7

/-- Configuration constant `business_hours_end` (7 PM). -/
def business_hours_end : Int := 19

/-- Configuration constant `max_patient_access_per_hour`. -/
def max_patient_access_per_hour : Nat := 20

/-- Configuration constant `max_bulk_access_threshold`. -/
def max_bulk_access_threshold : Nat := 10

/-- `_count_recent_access`: PHI accesses by a user in the last `minutes`
minutes (events of the user with a truthy `patient_id` and timestamp
strictly after the cutoff). -/
def countRecentAccess (events : List AuditEvent) (uid : String) (now : Int)
    (minutes : Int) : Nat :=
  (events.filter fun e =>
    e.user_id == uid && decide (now - minutes * 60 < e.timestamp)
      && truthy e.patient_id).length

/-- `_count_unique_patients_accessed`: number of distinct truthy
`patient_id` values accessed by a user in the last `minutes` minutes. -/
def countUniquePatients (events : List AuditEvent) (uid : String) (now : Int)
    (minutes : Int) : Nat :=
  ((events.filter fun e =>
    e.user_id == uid && decide (now - minutes * 60 < e.timestamp)
      && truthy e.patient_id).filterMap (fun e => e.patient_id)).dedup.length

/-- Check 1 annotation: unauthorized access. -/
def check1 (e : AuditEvent) : AuditEvent :=
  { e with is_violation := true
           violation_severity := some .high
           violation_reason := some "Attempted unauthorized access to PHI" }

/-- Check 2: after-hours access to `view_patient` / `view_health_record`
events; rewrites the event type to `after_hours_access`. -/
def check2 (e : AuditEvent) : AuditEvent :=
  if hourOf e.timestamp < business_hours_start
      ∨ business_hours_end ≤ hourOf e.timestamp then
    if e.event_type = .view_patient ∨ e.event_type = .view_health_record then
      { e with is_violation := true
               violation_severity := some .low
               violation_reason :=
                 some ("After-hours PHI access at " ++ fmtHM e.timestamp)
               event_type := .after_hours_access }
    else e
  else e

/-- Check 3: a patient-role user accessing a different patient\x27s data. -/
def check3 (e : AuditEvent) : AuditEvent :=
  if e.user_role == "patient" && truthy e.patient_id then
    match e.details.lookup "user_patient_id" with
    | some upid =>
        if !upid.isEmpty && e.patient_id != some upid then
          { e with is_violation := true
                   violation_severity := some .critical
                   violation_reason :=
                     some "Patient attempted to access another patient\x27s records" }
        else e
    | none => e
  else e

/-- Check 4: excessive queries in the last hour; rewrites the event type
to `excessive_queries`. -/
def check4 (events : List AuditEvent) (now : Int) (e : AuditEvent) : AuditEvent :=
  let recent := countRecentAccess events e.user_id now 60
  if max_patient_access_per_hour < recent then
    { e with is_violation := true
             violation_severity := some .medium
             violation_reason :=
               some ("Excessive PHI queries: " ++ toString recent
                 ++ " accesses in last hour")
             event_type := .excessive_queries }
  else e

/-- Check 5: bulk access to many distinct patients in ten minutes;
rewrites the event type to `bulk_data_access`. -/
def check5 (events : List AuditEvent) (now : Int) (e : AuditEvent) : AuditEvent :=
  let uniq := countUniquePatients events e.user_id now 10
  if max_bulk_access_threshold ≤ uniq then
    { e with is_violation := true
             violation_severity := some .high
             violation_reason :=
               some ("Bulk PHI access: " ++ toString uniq
                 ++ " different patients in 10 minutes")
             event_type := .bulk_data_access }
  else e

/-- `_check_for_violations`: check 1 returns early; otherwise checks 2
through 5 each run in order, later matches overwriting earlier ones.
`events` is the log as it stood before the current event is appended. -/
def checkForViolations (events : List AuditEvent) (now : Int)
    (e : AuditEvent) : AuditEvent :=
  if e.event_type = .unauthorized_access then check1 e
  else check5 events now (check4 events now (check3 (check2 e)))

/-- Arguments of one `log_event` call, together with the wall-clock time
at which the call happens. -/
structure LogCall where
  event_type : AuditEventType
  user_id : String
  user_email : String
  user_role : String
  resource_type : String
  resource_id : Option String
  patient_id : Option String
  ip_address : Option String
  details : List (String × String)
  now : Int
deriving Repr

/-- The event as `log_event` constructs it, before classification. -/
def newEventFromCall (counter : Nat) (c : LogCall) : AuditEvent :=
  { id := fmtId counter
    timestamp := c.now
    event_type := c.event_type
    user_id := c.user_id
    user_email := c.user_email
    user_role := c.user_role
    resource_type := c.resource_type
    resource_id := c.resource_id
    patient_id := c.patient_id
    ip_address := c.ip_address
    details := c.details
    is_violation := false
    violation_severity := none
    violation_reason := none }

/-- Per-day access counters of one user (`date -> count`, date as a day
number). -/
def bumpDay : List (Int × Nat) → Int → List (Int × Nat)
  | [], d => [(d, 1)]
  | (k, v) :: rest, d =>
      if k = d then (k, v + 1) :: rest else (k, v) :: bumpDay rest d

/-- Update of the `user_id -> date -> count` map for one user. -/
def bumpUser : List (String × List (Int × Nat)) → String → Int →
    List (String × List (Int × Nat))
  | [], u, d => [(u, bumpDay [] d)]
  | (k, m) :: rest, u, d =>
      if k = u then (k, bumpDay m d) :: rest else (k, m) :: bumpUser rest u d

/-- `_track_access`: a no-op unless `patient_id` is truthy; otherwise
increments the (user, current day) counter. -/
def trackAccess (counts : List (String × List (Int × Nat))) (uid : String)
    (pid : Option String) (now : Int) : List (String × List (Int × Nat)) :=
  if truthy pid then bumpUser counts uid (now / 86400) else counts

/-- State of a `HIPAAAuditLogger`: the append-only event log, the event
counter and the access-tracker counters. -/
structure LoggerState where
  events : List AuditEvent
  event_counter : Nat
  user_access_counts : List (String × List (Int × Nat))
deriving Repr

/-- Freshly constructed logger state. -/
def initState : LoggerState :=
  { events := [], event_counter := 0, user_access_counts := [] }

/-- `log_event`: allocate the next id, build the event, classify it
against the log as it stood before this event, append it, update the
tracker, and return the annotated event. -/
def logEvent (st : LoggerState) (c : LogCall) : LoggerState × AuditEvent :=
  let counter := st.event_counter + 1
  let ev := checkForViolations st.events c.now (newEventFromCall counter c)
  ({ events := st.events ++ [ev]
     event_counter := counter
     user_access_counts :=
       trackAccess st.user_access_counts c.user_id c.patient_id c.now }, ev)

/-- Run a sequence of `log_event` calls from the fresh state. -/
def runCalls (calls : List LogCall) : LoggerState :=
  calls.foldl (fun st c => (logEvent st c).1) initState

/-- Ordering used by the query layer: most recent first (descending
timestamp). -/
def moreRecent (a b : AuditEvent) : Prop := b.timestamp ≤ a.timestamp

instance : DecidableRel moreRecent := fun a b =>
  inferInstanceAs (Decidable (b.timestamp ≤ a.timestamp))

instance : IsTotal AuditEvent moreRecent :=
  ⟨fun a b => Int.le_total b.timestamp a.timestamp⟩

instance : IsTrans AuditEvent moreRecent :=
  ⟨fun _ _ _ h h2 => le_trans h2 h⟩

/-- `get_all_events`: all events, most recent first, truncated. -/
def getAllEvents (events : List AuditEvent) (limit : Nat) : List AuditEvent :=
  (events.insertionSort moreRecent).take limit

/-- `get_violations`: violation events, most recent first, truncated. -/
def getViolations (events : List AuditEvent) (limit : Nat) : List AuditEvent :=
  ((events.filter fun e => e.is_violation).insertionSort moreRecent).take limit

/-- `get_violations_by_severity`: violations at exactly one severity, in
log order. -/
def getViolationsBySeverity (events : List AuditEvent)
    (sev : ViolationSeverity) : List AuditEvent :=
  events.filter fun e => e.is_violation && e.violation_severity == some sev

/-- Result of `get_summary_stats`. -/
structure SummaryStats where
  total_events : Nat
  today_events : Nat
  total_violations : Nat
  today_violations : Nat
  violations_critical : Nat
  violations_high : Nat
  violations_medium : Nat
  violations_low : Nat
  unique_users_today : Nat
deriving Repr, DecidableEq

/-- `get_summary_stats`: aggregate counters over the log; today starts
at local midnight of `now`. -/
def getSummaryStats (events : List AuditEvent) (now : Int) : SummaryStats :=
  let todayStart := now / 86400 * 86400
  { total_events := events.length
    today_events := (events.filter fun e => decide (todayStart ≤ e.timestamp)).length
    total_violations := (events.filter fun e => e.is_violation).length
    today_violations := (events.filter fun e =>
      e.is_violation && decide (todayStart ≤ e.timestamp)).length
    violations_critical := (getViolationsBySeverity events .critical).length
    violations_high := (getViolationsBySeverity events .high).length
    violations_medium := (getViolationsBySeverity events .medium).length
    violations_low := (getViolationsBySeverity events .low).length
    unique_users_today := ((events.filter fun e =>
      decide (todayStart ≤ e.timestamp)).map (fun e => e.user_id)).dedup.length }

example : fmtId 1 = "AUD-000001" := by rfl
example : fmtId 2 = "AUD-000002" := by rfl
example : fmtHM (3 * 3600 + 5 * 60) = "03:05" := by rfl

/-! ### Field-preservation lemmas for the individual checks -/

theorem check1_id (e : AuditEvent) : (check1 e).id = e.id := rfl

theorem check1_event_type (e : AuditEvent) : (check1 e).event_type = e.event_type := rfl

theorem check2_id (e : AuditEvent) : (check2 e).id = e.id := by
  unfold check2; repeat' split
  all_goals rfl

theorem check2_user_id (e : AuditEvent) : (check2 e).user_id = e.user_id := by
  unfold check2; repeat' split
  all_goals rfl

theorem check2_user_role (e : AuditEvent) : (check2 e).user_role = e.user_role := by
  unfold check2; repeat' split
  all_goals rfl

theorem check2_patient_id (e : AuditEvent) : (check2 e).patient_id = e.patient_id := by
  unfold check2; repeat' split
  all_goals rfl

theorem check2_details (e : AuditEvent) : (check2 e).details = e.details := by
  unfold check2; repeat' split
  all_goals rfl

theorem check3_id (e : AuditEvent) : (check3 e).id = e.id := by
  unfold check3; repeat' split
  all_goals rfl

theorem check3_user_id (e : AuditEvent) : (check3 e).user_id = e.user_id := by
  unfold check3; repeat' split
  all_goals rfl

theorem check3_event_type (e : AuditEvent) : (check3 e).event_type = e.event_type := by
  unfold check3; repeat' split
  all_goals rfl

theorem check4_id (evs : List AuditEvent) (t : Int) (e : AuditEvent) :
    (check4 evs t e).id = e.id := by
  unfold check4; dsimp only; split
  all_goals rfl

theorem check4_user_id (evs : List AuditEvent) (t : Int) (e : AuditEvent) :
    (check4 evs t e).user_id = e.user_id := by
  unfold check4; dsimp only; split
  all_goals rfl

theorem check5_id (evs : List AuditEvent) (t : Int) (e : AuditEvent) :
    (check5 evs t e).id = e.id := by
  unfold check5; dsimp only; split
  all_goals rfl

theorem checkForViolations_id (evs : List AuditEvent) (t : Int) (e : AuditEvent) :
    (checkForViolations evs t e).id = e.id := by
  unfold checkForViolations; split
  · rfl
  · rw [check5_id, check4_id, check3_id, check2_id]

/-! ### Decimal formatting: correctness and injectivity of the id format -/

theorem digitVal_digitChar {n : Nat} (h : n < 10) : digitVal (digitChar n) = n := by
  interval_cases n <;> decide

/-- Folding the decimal digits of `n` onto an accumulator recovers `n`. -/
theorem natDigitsGo_val : ∀ fuel n, n ≤ fuel →
    ∀ a, List.foldl (fun x c => x * 10 + digitVal c) a (natDigitsGo fuel n) =
      a * 10 ^ (natDigitsGo fuel n).length + n := by
  intro fuel
  induction fuel with
  | zero =>
      intro n hn a
      have : n = 0 := Nat.le_zero.mp hn
      subst this
      simp [natDigitsGo, digitVal_digitChar]
  | succ fuel ih =>
      intro n hn a
      by_cases h : n < 10
      · simp [natDigitsGo, h, digitVal_digitChar h, pow_succ]
      · have hrec : n / 10 ≤ fuel := by omega
        have hmod : n % 10 < 10 := Nat.mod_lt _ (by omega)
        simp only [natDigitsGo, if_neg h, List.foldl_append, List.foldl_cons,
          List.foldl_nil, List.length_append, List.length_cons, List.length_nil]
        rw [ih (n / 10) hrec a, digitVal_digitChar hmod, pow_succ]
        have : n / 10 * 10 + n % 10 = n := by omega
        ring_nf
        omega

theorem natDigits_val (n : Nat) :
    List.foldl (fun x c => x * 10 + digitVal c) 0 (natDigits n) = n := by
  have := natDigitsGo_val n n (le_refl n) 0
  simpa [natDigits] using this

theorem foldl_replicate_zero (k : Nat) :
    List.foldl (fun x c => x * 10 + digitVal c) 0 (List.replicate k '0') = 0 := by
  induction k with
  | zero => rfl
  | succ k ih => simpa [List.replicate_succ, digitVal] using ih

theorem pad6_inj {m n : Nat} (h : pad6 m = pad6 n) : m = n := by
  have hdata : List.replicate (6 - (natDigits m).length) '0' ++ natDigits m =
      List.replicate (6 - (natDigits n).length) '0' ++ natDigits n :=
    congrArg String.data h
  have hm := congrArg (List.foldl (fun x c => x * 10 + digitVal c) 0) hdata
  rwa [List.foldl_append, List.foldl_append, foldl_replicate_zero,
    foldl_replicate_zero, natDigits_val, natDigits_val] at hm

theorem fmtId_inj {m n : Nat} (h : fmtId m = fmtId n) : m = n := by
  apply pad6_inj
  have hdata := congrArg String.data h
  simp only [fmtId] at hdata
  have hp : (pad6 m).data = (pad6 n).data := by
    have h2 : "AUD-".data ++ (pad6 m).data = "AUD-".data ++ (pad6 n).data := by
      simpa [String.data_append] using hdata
    exact List.append_cancel_left h2
  exact String.ext hp

/-! ### Id assignment invariant -/

/-- Every event in the log carries the id formatted from its position,
and the counter equals the log length. -/
def idsOk (st : LoggerState) : Prop :=
  st.events.length = st.event_counter ∧
    ∀ i (h : i < st.events.length), (st.events.get ⟨i, h⟩).id = fmtId (i + 1)

theorem idsOk_logEvent (st : LoggerState) (c : LogCall) (h : idsOk st) :
    idsOk (logEvent st c).1 := by
  obtain ⟨hlen, hid⟩ := h
  refine ⟨by simp [logEvent, hlen], ?_⟩
  intro i hi
  have hi2 : i < (st.events ++
      [checkForViolations st.events c.now
        (newEventFromCall (st.event_counter + 1) c)]).length := hi
  have hget : (logEvent st c).1.events.get ⟨i, hi⟩ =
      (st.events ++
        [checkForViolations st.events c.now
          (newEventFromCall (st.event_counter + 1) c)]).get ⟨i, hi2⟩ := rfl
  rw [hget, List.get_eq_getElem]
  by_cases hlt : i < st.events.length
  · rw [List.getElem_append_left hlt]
    have := hid i hlt
    rwa [List.get_eq_getElem] at this
  · have hlena : i < st.events.length + 1 := by simpa using hi2
    have hieq : i = st.events.length := by omega
    rw [List.getElem_append_right (le_of_not_lt hlt)]
    have h0 : i - st.events.length = 0 := by omega
    simp only [h0, List.getElem_cons_zero]
    rw [checkForViolations_id]
    simp [newEventFromCall, hieq, hlen]

theorem idsOk_runCalls (calls : List LogCall) : idsOk (runCalls calls) := by
  suffices h : ∀ st, idsOk st → idsOk (calls.foldl (fun st c => (logEvent st c).1) st) by
    exact h initState ⟨rfl, fun i hi => absurd hi (by simp [initState])⟩
  induction calls with
  | nil => intro st hst; exact hst
  | cons c cs ih =>
      intro st hst
      exact ih _ (idsOk_logEvent st c hst)

/-! ### Concrete sample data for witnesses and counterexamples -/

/-- A sample `log_event` call. -/
def mkCall (ty : AuditEventType) (uid role : String) (pid : Option String)
    (det : List (String × String)) (now : Int) : LogCall :=
  { event_type := ty
    user_id := uid
    user_email := "user@hospital.org"
    user_role := role
    resource_type := "patient"
    resource_id := none
    patient_id := pid
    ip_address := none
    details := det
    now := now }

/-- A sample already-logged event. -/
def mkPriorEvent (i : Nat) (uid pid : String) (t : Int) : AuditEvent :=
  { id := fmtId i
    timestamp := t
    event_type := .view_patient
    user_id := uid
    user_email := "user@hospital.org"
    user_role := "doctor"
    resource_type := "patient"
    resource_id := none
    patient_id := some pid
    ip_address := none
    details := []
    is_violation := false
    violation_severity := none
    violation_reason := none }

/-- A log holding 21 events of user `U1`, each with a distinct patient
id, all at time `999990` (10 seconds before `1000000`). -/
def bulkLog : List AuditEvent :=
  (List.range 21).map fun i => mkPriorEvent (i + 1) "U1" ("P" ++ toString i) 999990

/-- Logger state whose log is `bulkLog`. -/
def bulkState : LoggerState :=
  { events := bulkLog, event_counter := 21, user_access_counts := [] }

/-- Claim C6: across any sequence of `log_event` calls in one process,
the assigned event ids are unique, each formatted as the constant
prefix `AUD-` followed by the 6-digit zero-padded counter, and the
counters grow strictly with the position in the log (the event at
0-based index `i` carries id `fmtId (i + 1)`). -/
theorem c6_event_ids (calls : List LogCall) (i j : Nat)
    (hi : i < (runCalls calls).events.length)
    (hj : j < (runCalls calls).events.length) :
    ((runCalls calls).events.get ⟨i, hi⟩).id = fmtId (i + 1) ∧
      (i ≠ j →
        ((runCalls calls).events.get ⟨i, hi⟩).id ≠
          ((runCalls calls).events.get ⟨j, hj⟩).id) := by
  have hids := idsOk_runCalls calls
  refine ⟨hids.2 i hi, ?_⟩
  intro hne heq
  rw [hids.2 i hi, hids.2 j hj] at heq
  have := fmtId_inj heq
  omega

/-- Witness for C6 at a concrete one-call run: the single event gets id
`AUD-000001`. -/
theorem c6_event_ids_witness :
    ((runCalls [mkCall .login "U1" "doctor" none [] 1000000]).events.get
      ⟨0, by decide⟩).id = fmtId 1 :=
  (c6_event_ids [mkCall .login "U1" "doctor" none [] 1000000] 0 0
    (by decide) (by decide)).1

/-! ### Violation-annotation invariant -/

/-- The violation annotation of an event is consistent: flagged events
carry both a severity and a reason, unflagged events carry neither. -/
def annInvariant (e : AuditEvent) : Prop :=
  (e.is_violation = true ↔
    e.violation_severity.isSome ∧ e.violation_reason.isSome) ∧
  (e.is_violation = false ↔
    e.violation_severity = none ∧ e.violation_reason = none)

instance (e : AuditEvent) : Decidable (annInvariant e) := by
  unfold annInvariant; infer_instance

theorem annInvariant_check2 (e : AuditEvent) (h : annInvariant e) :
    annInvariant (check2 e) := by
  unfold check2; repeat' split
  all_goals first
    | exact h
    | simp [annInvariant]

theorem annInvariant_check3 (e : AuditEvent) (h : annInvariant e) :
    annInvariant (check3 e) := by
  unfold check3; repeat' split
  all_goals first
    | exact h
    | simp [annInvariant]

theorem annInvariant_check4 (evs : List AuditEvent) (t : Int) (e : AuditEvent)
    (h : annInvariant e) : annInvariant (check4 evs t e) := by
  unfold check4; dsimp only; split
  · simp [annInvariant]
  · exact h

theorem annInvariant_check5 (evs : List AuditEvent) (t : Int) (e : AuditEvent)
    (h : annInvariant e) : annInvariant (check5 evs t e) := by
  unfold check5; dsimp only; split
  · simp [annInvariant]
  · exact h

theorem annInvariant_checkForViolations (evs : List AuditEvent) (t : Int)
    (e : AuditEvent) (h : annInvariant e) :
    annInvariant (checkForViolations evs t e) := by
  unfold checkForViolations; split
  · simp [check1, annInvariant]
  · exact annInvariant_check5 _ _ _
      (annInvariant_check4 _ _ _
        (annInvariant_check3 _ (annInvariant_check2 _ h)))

theorem annInvariant_all (calls : List LogCall) :
    ∀ e ∈ (runCalls calls).events, annInvariant e := by
  suffices h : ∀ st, (∀ e ∈ st.events, annInvariant e) →
      ∀ e ∈ (calls.foldl (fun st c => (logEvent st c).1) st).events, annInvariant e by
    exact h initState (by simp [initState])
  induction calls with
  | nil => intro st hst; exact hst
  | cons c cs ih =>
      intro st hst
      refine ih _ ?_
      intro e he
      rcases List.mem_append.mp he with hmem | hmem
      · exact hst e hmem
      · rcases List.mem_singleton.mp hmem with rfl
        refine annInvariant_checkForViolations _ _ _ ?_
        simp [newEventFromCall, annInvariant]

/-- Claim C5: after any sequence of `log_event` calls, every event in
the log satisfies: `is_violation = true` iff both `violation_severity`
and `violation_reason` are set, and `is_violation = false` iff both are
unset. -/
theorem c5_annotation_invariant (calls : List LogCall) :
    ∀ e ∈ (runCalls calls).events, annInvariant e :=
  annInvariant_all calls

/-- Witness for C5: the invariant at the concrete event produced by one
concrete call (an after-hours `view_patient` access, hence flagged). -/
theorem c5_annotation_invariant_witness :
    annInvariant ((logEvent initState
      (mkCall .view_patient "U1" "doctor" (some "P1") [] 10800)).2) :=
  c5_annotation_invariant
    [mkCall .view_patient "U1" "doctor" (some "P1") [] 10800] _ (by decide)

/-! ### Claim C10: severity breakdown sums to the violation total -/

theorem severity_counts_sum (l : List AuditEvent)
    (h : ∀ e ∈ l, e.is_violation = true → e.violation_severity.isSome) :
    (l.filter fun e => e.is_violation && e.violation_severity == some .critical).length +
      (l.filter fun e => e.is_violation && e.violation_severity == some .high).length +
      (l.filter fun e => e.is_violation && e.violation_severity == some .medium).length +
      (l.filter fun e => e.is_violation && e.violation_severity == some .low).length =
      (l.filter fun e => e.is_violation).length := by
  induction l with
  | nil => rfl
  | cons e t ih =>
      have ht : ∀ x ∈ t, x.is_violation = true → x.violation_severity.isSome :=
        fun x hx => h x (List.mem_cons_of_mem e hx)
      have ihs := ih ht
      by_cases hv : e.is_violation = true
      · have hs : e.violation_severity.isSome := h e (List.mem_cons_self e t) hv
        obtain ⟨s, hs⟩ := Option.isSome_iff_exists.mp hs
        cases s <;> simp [List.filter_cons, hv, hs] <;> omega
      · have hv2 : e.is_violation = false := by
          cases hb : e.is_violation
          · rfl
          · exact absurd hb hv
        simp [List.filter_cons, hv2, ihs]

/-- Claim C10: in every result of `get_summary_stats`, the four
per-severity violation counts sum exactly to `total_violations`. -/
theorem c10_severity_counts_sum (calls : List LogCall) (now : Int) :
    (getSummaryStats (runCalls calls).events now).violations_critical +
      (getSummaryStats (runCalls calls).events now).violations_high +
      (getSummaryStats (runCalls calls).events now).violations_medium +
      (getSummaryStats (runCalls calls).events now).violations_low =
      (getSummaryStats (runCalls calls).events now).total_violations := by
  have h : ∀ e ∈ (runCalls calls).events, e.is_violation = true →
      e.violation_severity.isSome := by
    intro e he hv
    exact ((annInvariant_all calls e he).1.mp hv).1
  simpa [getSummaryStats, getViolationsBySeverity] using
    severity_counts_sum (runCalls calls).events h

/-! ### Claim C1: rule 1 is terminal (early return) -/

/-- Counterexample to claim C1 as stated: for an `unauthorized_access`
event whose user also trips rule 5 (21 distinct patients accessed in
the last 10 minutes), the final state is still rule 1 output - the
event type is not rewritten to `bulk_data_access` and the reason stays
rule 1 reason, because `_check_for_violations` returns right after
check 1. -/
theorem c1_counterexample :
    max_bulk_access_threshold ≤
        countUniquePatients bulkState.events "U1" 1000000 10 ∧
      ((logEvent bulkState
        (mkCall .unauthorized_access "U1" "doctor" none [] 1000000)).2).event_type =
        .unauthorized_access ∧
      ((logEvent bulkState
        (mkCall .unauthorized_access "U1" "doctor" none [] 1000000)).2).event_type ≠
        .bulk_data_access ∧
      ((logEvent bulkState
        (mkCall .unauthorized_access "U1" "doctor" none [] 1000000)).2).violation_reason =
        some "Attempted unauthorized access to PHI" := by decide

/-- Claim C1 (amended): for every event recorded via `log_event` with
`event_type = unauthorized_access`, the final annotation is always rule
1 output - `is_violation = true`, severity high, reason "Attempted
unauthorized access to PHI", event type unchanged; later rules never
run because the classifier returns immediately after rule 1. -/
theorem c1_unauthorized_terminal (st : LoggerState) (c : LogCall)
    (h : c.event_type = .unauthorized_access) :
    ((logEvent st c).2).is_violation = true ∧
      ((logEvent st c).2).violation_severity = some .high ∧
      ((logEvent st c).2).violation_reason =
        some "Attempted unauthorized access to PHI" ∧
      ((logEvent st c).2).event_type = c.event_type := by
  have hev : (logEvent st c).2 =
      check1 (newEventFromCall (st.event_counter + 1) c) := by
    show checkForViolations st.events c.now
      (newEventFromCall (st.event_counter + 1) c) = _
    unfold checkForViolations
    rw [if_pos (show (newEventFromCall (st.event_counter + 1) c).event_type =
      .unauthorized_access from h)]
  rw [hev]
  exact ⟨rfl, rfl, rfl, rfl⟩

/-- Witness for C1 (amended) at a concrete call on the empty log. -/
theorem c1_unauthorized_terminal_witness :
    ((logEvent initState
      (mkCall .unauthorized_access "U2" "nurse" none [] 50000)).2).is_violation =
      true :=
  (c1_unauthorized_terminal initState
    (mkCall .unauthorized_access "U2" "nurse" none [] 50000) rfl).1

/-! ### Claim C3: the after-hours rule -/

/-- Claim C3: rule 2 flags exactly the events whose hour is outside
[07:00, 19:00) and whose type is `view_patient` or
`view_health_record`, setting severity low, the "After-hours PHI access
at HH:MM" reason, and rewriting the type to `after_hours_access`;
every other event is left unchanged by rule 2. -/
theorem c3_after_hours_rule (e : AuditEvent) :
    ((hourOf e.timestamp < business_hours_start ∨
        business_hours_end ≤ hourOf e.timestamp) ∧
      (e.event_type = .view_patient ∨ e.event_type = .view_health_record) →
      check2 e =
        { e with is_violation := true
                 violation_severity := some .low
                 violation_reason :=
                   some ("After-hours PHI access at " ++ fmtHM e.timestamp)
                 event_type := .after_hours_access }) ∧
    (¬ ((hourOf e.timestamp < business_hours_start ∨
        business_hours_end ≤ hourOf e.timestamp) ∧
      (e.event_type = .view_patient ∨ e.event_type = .view_health_record)) →
      check2 e = e) := by
  constructor
  · rintro ⟨h1, h2⟩
    unfold check2
    rw [if_pos h1, if_pos h2]
  · intro h
    unfold check2
    by_cases h1 : hourOf e.timestamp < business_hours_start ∨
        business_hours_end ≤ hourOf e.timestamp
    · have h2 : ¬ (e.event_type = .view_patient ∨
          e.event_type = .view_health_record) := fun h2 => h ⟨h1, h2⟩
      rw [if_pos h1, if_neg h2]
    · rw [if_neg h1]

/-- Witness for C3: an event at hour 3 with type `view_patient` is
flagged low severity and relabelled `after_hours_access`. -/
theorem c3_after_hours_rule_witness :
    check2 (mkPriorEvent 1 "U1" "P1" 10800) =
      { mkPriorEvent 1 "U1" "P1" 10800 with
          is_violation := true
          violation_severity := some .low
          violation_reason :=
            some ("After-hours PHI access at "
              ++ fmtHM (mkPriorEvent 1 "U1" "P1" 10800).timestamp)
          event_type := .after_hours_access } :=
  (c3_after_hours_rule (mkPriorEvent 1 "U1" "P1" 10800)).1
    ⟨by decide, by decide⟩

/-! ### Claim C7: soundness of the violations query -/

/-- Claim C7: `get_violations` returns at most `N` events, every
returned event is a flagged member of the log, and the result is
ordered most recent first. -/
theorem c7_get_violations_sound (st : LoggerState) (N : Nat) :
    (getViolations st.events N).length ≤ N ∧
      (∀ e ∈ getViolations st.events N, e.is_violation = true ∧ e ∈ st.events) ∧
      List.Sorted moreRecent (getViolations st.events N) := by
  refine ⟨List.length_take_le _ _, ?_, ?_⟩
  · intro e he
    have h1 : e ∈ (st.events.filter fun x => x.is_violation).insertionSort
        moreRecent := List.take_subset _ _ he
    have h2 : e ∈ st.events.filter fun x => x.is_violation :=
      (List.mem_insertionSort moreRecent).mp h1
    exact ⟨(List.mem_filter.mp h2).2, (List.mem_filter.mp h2).1⟩
  · exact List.Pairwise.sublist (List.take_sublist _ _)
      (List.sorted_insertionSort moreRecent _)

/-- Witness for C7 on a concrete state and limit. -/
theorem c7_get_violations_sound_witness :
    (getViolations bulkState.events 5).length ≤ 5 :=
  (c7_get_violations_sound bulkState 5).1

/-! ### Claim C8: serialized enum tokens -/

/-- Modelled from the spec: the hyphenated event-type token enumeration
the data-model section lists. -/
def specEventTypeTokens : List String :=
  ["view-patient", "view-health-record", "view-chat-history",
   "view-appointments", "create-appointment", "update-appointment",
   "update-patient", "login", "logout", "login-failed",
   "unauthorized-access", "bulk-data-access", "after-hours-access",
   "excessive-queries"]

/-- Counterexample to claim C8 as stated: the serialized value of
`VIEW_PATIENT` is the underscore token `view_patient`, which is not
one of the hyphenated tokens the claim enumerates. -/
theorem c8_counterexample :
    AuditEventType.view_patient.value = "view_patient" ∧
      AuditEventType.view_patient.value ∉ specEventTypeTokens := by decide

/-- Claim C8 (amended): every serialized event-type value is one of the
lowercase underscore tokens `view_patient`, ..., `excessive_queries`
(snake_case, not hyphenated), and every serialized severity value is
one of `low`, `medium`, `high`, `critical`. -/
theorem c8_serialized_tokens :
    (∀ t : AuditEventType, t.value ∈
      ["view_patient", "view_health_record", "view_chat_history",
       "view_appointments", "create_appointment", "update_appointment",
       "update_patient", "login", "logout", "login_failed",
       "unauthorized_access", "bulk_data_access", "after_hours_access",
       "excessive_queries"]) ∧
      (∀ s : ViolationSeverity, s.value ∈
        ["low", "medium", "high", "critical"]) := by decide

/-! ### Fire/skip characterizations of checks 3, 4 and 5 -/

theorem check3_fires (x : AuditEvent) (upid : String)
    (hrole : x.user_role = "patient") (hpid : truthy x.patient_id = true)
    (hup : x.details.lookup "user_patient_id" = some upid)
    (hne1 : upid.isEmpty = false) (hne2 : x.patient_id ≠ some upid) :
    check3 x =
      { x with is_violation := true
               violation_severity := some .critical
               violation_reason :=
                 some "Patient attempted to access another patient\x27s records" } := by
  unfold check3
  rw [if_pos (by simp [hrole, hpid])]
  simp only [hup]
  rw [if_pos (by simp [hne1, hne2, bne_iff_ne])]

theorem check4_fires (evs : List AuditEvent) (now : Int) (x : AuditEvent)
    (h : max_patient_access_per_hour < countRecentAccess evs x.user_id now 60) :
    check4 evs now x =
      { x with is_violation := true
               violation_severity := some .medium
               violation_reason :=
                 some ("Excessive PHI queries: "
                   ++ toString (countRecentAccess evs x.user_id now 60)
                   ++ " accesses in last hour")
               event_type := .excessive_queries } := by
  unfold check4; dsimp only
  rw [if_pos h]

theorem check4_skips (evs : List AuditEvent) (now : Int) (x : AuditEvent)
    (h : ¬ max_patient_access_per_hour < countRecentAccess evs x.user_id now 60) :
    check4 evs now x = x := by
  unfold check4; dsimp only
  rw [if_neg h]

theorem check5_fires (evs : List AuditEvent) (now : Int) (x : AuditEvent)
    (h : max_bulk_access_threshold ≤ countUniquePatients evs x.user_id now 10) :
    check5 evs now x =
      { x with is_violation := true
               violation_severity := some .high
               violation_reason :=
                 some ("Bulk PHI access: "
                   ++ toString (countUniquePatients evs x.user_id now 10)
                   ++ " different patients in 10 minutes")
               event_type := .bulk_data_access } := by
  unfold check5; dsimp only
  rw [if_pos h]

theorem check5_skips (evs : List AuditEvent) (now : Int) (x : AuditEvent)
    (h : ¬ max_bulk_access_threshold ≤ countUniquePatients evs x.user_id now 10) :
    check5 evs now x = x := by
  unfold check5; dsimp only
  rw [if_neg h]

theorem logEvent_snd (st : LoggerState) (c : LogCall)
    (hty : c.event_type ≠ .unauthorized_access) :
    (logEvent st c).2 =
      check5 st.events c.now (check4 st.events c.now
        (check3 (check2 (newEventFromCall (st.event_counter + 1) c)))) := by
  show checkForViolations st.events c.now
    (newEventFromCall (st.event_counter + 1) c) = _
  unfold checkForViolations
  rw [if_neg (show ¬ (newEventFromCall (st.event_counter + 1) c).event_type =
    .unauthorized_access from hty)]

/-! ### Claim C9: the volumetric rules ignore the current event -/

/-- Counterexample to claim C9 as stated: a user whose prior log holds
21 distinct-patient accesses inside both windows trips both volumetric
thresholds, yet a subsequent `unauthorized_access` event by that user
does not get its event type rewritten - rule 1 returns first. -/
theorem c9_counterexample :
    max_patient_access_per_hour <
        countRecentAccess bulkState.events "U1" 1000000 60 ∧
      ((logEvent bulkState
        (mkCall .unauthorized_access "U1" "doctor" none [] 1000000)).2).event_type ≠
          .excessive_queries ∧
      ((logEvent bulkState
        (mkCall .unauthorized_access "U1" "doctor" none [] 1000000)).2).event_type ≠
          .bulk_data_access := by decide

/-- Claim C9 (amended): the current event\x27s own `patient_id` plays no
role in rules 4 and 5 - for any call whose type is not
`unauthorized_access` (whatever its `patient_id`, e.g. a logout with
none) by a user whose prior log events exceed the hourly threshold, the
recorded event is flagged and its type rewritten to
`excessive_queries` or `bulk_data_access`; the counts scan only the
prior log. -/
theorem c9_volume_flag_without_patient_id (st : LoggerState) (c : LogCall)
    (hty : c.event_type ≠ .unauthorized_access)
    (hcnt : max_patient_access_per_hour <
      countRecentAccess st.events c.user_id c.now 60) :
    ((logEvent st c).2).is_violation = true ∧
      (((logEvent st c).2).event_type = .excessive_queries ∨
        ((logEvent st c).2).event_type = .bulk_data_access) := by
  have hev := logEvent_snd st c hty
  rw [hev]
  set x3 := check3 (check2 (newEventFromCall (st.event_counter + 1) c)) with hx3def
  have hux : x3.user_id = c.user_id := by
    rw [hx3def, check3_user_id, check2_user_id]; rfl
  have h4 := check4_fires st.events c.now x3 (by rw [hux]; exact hcnt)
  set x4 := check4 st.events c.now x3 with hx4def
  have hx4u : x4.user_id = c.user_id := by rw [hx4def, check4_user_id, hux]
  by_cases h5 : max_bulk_access_threshold ≤
      countUniquePatients st.events c.user_id c.now 10
  · rw [check5_fires st.events c.now x4 (by rw [hx4u]; exact h5)]
    exact ⟨rfl, Or.inr rfl⟩
  · rw [check5_skips st.events c.now x4 (by rw [hx4u]; exact h5)]
    rw [h4]
    exact ⟨rfl, Or.inl rfl⟩

/-- Witness for C9 (amended): a logout without `patient_id` by the
`bulkState` user is flagged with a rewritten type. -/
theorem c9_volume_flag_witness :
    ((logEvent bulkState
        (mkCall .logout "U1" "doctor" none [] 1000000)).2).is_violation = true ∧
      (((logEvent bulkState
          (mkCall .logout "U1" "doctor" none [] 1000000)).2).event_type =
            .excessive_queries ∨
        ((logEvent bulkState
          (mkCall .logout "U1" "doctor" none [] 1000000)).2).event_type =
            .bulk_data_access) :=
  c9_volume_flag_without_patient_id bulkState
    (mkCall .logout "U1" "doctor" none [] 1000000) (by decide) (by decide)

/-! ### Claim C4: the self-access rule -/

/-- A patient-role call with mismatched patient ids whose type is
`unauthorized_access`. -/
def selfAccessUnauthCall : LogCall :=
  mkCall .unauthorized_access "U9" "patient" (some "P001")
    [("user_patient_id", "P002")] 50000

/-- Counterexample to claim C4 as stated: a patient-role call with
mismatched patient ids is NOT flagged critical when its type is
`unauthorized_access` - rule 1 returns first with severity high, and
rules 4/5 did not match (both counts are zero on the empty log). -/
theorem c4_counterexample :
    selfAccessUnauthCall.user_role = "patient" ∧
      selfAccessUnauthCall.patient_id = some "P001" ∧
      selfAccessUnauthCall.details.lookup "user_patient_id" = some "P002" ∧
      countRecentAccess initState.events "U9" 50000 60 = 0 ∧
      countUniquePatients initState.events "U9" 50000 10 = 0 ∧
      ((logEvent initState selfAccessUnauthCall).2).violation_severity =
        some .high ∧
      ((logEvent initState selfAccessUnauthCall).2).violation_severity ≠
        some .critical := by decide

/-- Claim C4 (amended): for every `log_event` call whose type is not
`unauthorized_access`, with `user_role = "patient"`, a truthy
`patient_id`, a truthy `details["user_patient_id"]` differing from
`patient_id`, and with rules 4 and 5 not matching, the event is flagged
`is_violation = true` with severity critical and the self-access
reason, regardless of time of day; rule 3 leaves the event type as
rule 2 left it. -/
theorem c4_self_access_critical (st : LoggerState) (c : LogCall) (upid : String)
    (hty : c.event_type ≠ .unauthorized_access)
    (hrole : c.user_role = "patient")
    (hpid : truthy c.patient_id = true)
    (hup : c.details.lookup "user_patient_id" = some upid)
    (hne1 : upid.isEmpty = false)
    (hne2 : c.patient_id ≠ some upid)
    (hc4 : ¬ max_patient_access_per_hour <
      countRecentAccess st.events c.user_id c.now 60)
    (hc5 : ¬ max_bulk_access_threshold ≤
      countUniquePatients st.events c.user_id c.now 10) :
    ((logEvent st c).2).is_violation = true ∧
      ((logEvent st c).2).violation_severity = some .critical ∧
      ((logEvent st c).2).violation_reason =
        some "Patient attempted to access another patient\x27s records" ∧
      ((logEvent st c).2).event_type =
        (check2 (newEventFromCall (st.event_counter + 1) c)).event_type := by
  have hev := logEvent_snd st c hty
  rw [hev]
  set e2 := check2 (newEventFromCall (st.event_counter + 1) c) with he2def
  have h3 := check3_fires e2 upid
    (by rw [he2def, check2_user_role]; exact hrole)
    (by rw [he2def, check2_patient_id]; exact hpid)
    (by rw [he2def, check2_details]; exact hup)
    hne1
    (by rw [he2def, check2_patient_id]; exact hne2)
  set x3 := check3 e2 with hx3def
  have hux : x3.user_id = c.user_id := by
    rw [hx3def, check3_user_id, he2def, check2_user_id]; rfl
  rw [check4_skips st.events c.now x3 (by rw [hux]; exact hc4)]
  rw [check5_skips st.events c.now x3 (by rw [hux]; exact hc5)]
  rw [h3]
  exact ⟨rfl, rfl, rfl, rfl⟩

/-- A patient-role `view_patient` call with mismatched patient ids
during business hours. -/
def selfAccessCall : LogCall :=
  mkCall .view_patient "U9" "patient" (some "P001")
    [("user_patient_id", "P002")] 50000

/-- Witness for C4 (amended) on the empty log during business hours. -/
theorem c4_self_access_critical_witness :
    ((logEvent initState selfAccessCall).2).violation_severity =
      some .critical :=
  (c4_self_access_critical initState selfAccessCall "P002" (by decide)
    (by decide) (by decide) (by decide) (by decide) (by decide)
    (by decide) (by decide)).2.1

/-! ### Claim C2: rule 5 overwrites rule 4 in the bulk scenario -/

theorem truthy_isSome {p : Option String} (h : truthy p = true) : p.isSome := by
  cases p
  · exact absurd h (by simp [truthy])
  · rfl

theorem length_filterMap_patient_id (l : List AuditEvent)
    (h : ∀ e ∈ l, (e.patient_id).isSome) :
    (l.filterMap fun e => e.patient_id).length = l.length := by
  induction l with
  | nil => rfl
  | cons e t ih =>
      have he : e.patient_id.isSome := h e (List.mem_cons_self e t)
      obtain ⟨p, hp⟩ := Option.isSome_iff_exists.mp he
      have ht := ih fun x hx => h x (List.mem_cons_of_mem e hx)
      simp [List.filterMap_cons, hp, ht]

/-- Counterexample to claim C2 as stated: with 21 prior distinct-patient
events for `U1` inside both windows, a 22nd call of type
`unauthorized_access` is settled by rule 1 alone - rules 4 and 5 never
run, so the final state is not rule 5 output. -/
theorem c2_counterexample :
    countRecentAccess bulkState.events "U1" 1000000 60 = 21 ∧
      countUniquePatients bulkState.events "U1" 1000000 10 = 21 ∧
      ((logEvent bulkState (mkCall .unauthorized_access "U1" "doctor"
        (some "P99") [] 1000000)).2).event_type ≠ .bulk_data_access ∧
      ((logEvent bulkState (mkCall .unauthorized_access "U1" "doctor"
        (some "P99") [] 1000000)).2).violation_reason ≠
        some "Bulk PHI access: 21 different patients in 10 minutes" := by decide

/-- Claim C2 (amended): for any call whose type is not
`unauthorized_access` by a user with exactly 21 prior log events
carrying a truthy `patient_id`, all within the last 10 minutes and
with pairwise-distinct patient ids, rule 4 matches (21 > 20) and rule 5
then overwrites it: the recorded event ends flagged with severity high,
type `bulk_data_access`, and the bulk reason for 21 patients. Both
window counts scan the log as it stood before the event is appended. -/
theorem c2_bulk_overwrites_excessive (st : LoggerState) (c : LogCall)
    (hty : c.event_type ≠ .unauthorized_access)
    (hcount : (st.events.filter fun e =>
      e.user_id == c.user_id && truthy e.patient_id).length = 21)
    (hwin : ∀ e ∈ st.events, e.user_id = c.user_id →
      truthy e.patient_id = true → c.now - 600 < e.timestamp)
    (hdist : ((st.events.filter fun e =>
      e.user_id == c.user_id && truthy e.patient_id).filterMap
        fun e => e.patient_id).Nodup) :
    max_patient_access_per_hour <
        countRecentAccess st.events c.user_id c.now 60 ∧
      max_bulk_access_threshold ≤
        countUniquePatients st.events c.user_id c.now 10 ∧
      ((logEvent st c).2).is_violation = true ∧
      ((logEvent st c).2).violation_severity = some .high ∧
      ((logEvent st c).2).event_type = .bulk_data_access ∧
      ((logEvent st c).2).violation_reason =
        some "Bulk PHI access: 21 different patients in 10 minutes" := by
  have hfc : ∀ m : Int, 600 ≤ m * 60 →
      (st.events.filter fun e =>
        e.user_id == c.user_id && decide (c.now - m * 60 < e.timestamp)
          && truthy e.patient_id) =
      (st.events.filter fun e => e.user_id == c.user_id && truthy e.patient_id) := by
    intro m hm
    apply List.filter_congr
    intro e he
    cases hu : (e.user_id == c.user_id)
    · simp [hu]
    · cases hp : truthy e.patient_id
      · simp [hp]
      · have hueq : e.user_id = c.user_id := by simpa using hu
        have ht := hwin e he hueq hp
        have hd : decide (c.now - m * 60 < e.timestamp) = true :=
          decide_eq_true (by omega)
        simp [hu, hp, hd]
  have h60 : countRecentAccess st.events c.user_id c.now 60 = 21 := by
    unfold countRecentAccess
    rw [hfc 60 (by norm_num)]
    exact hcount
  have hmem : ∀ e ∈ (st.events.filter fun e =>
      e.user_id == c.user_id && truthy e.patient_id), e.patient_id.isSome := by
    intro e he
    have := (List.mem_filter.mp he).2
    exact truthy_isSome (by
      cases hx : truthy e.patient_id
      · rw [hx, Bool.and_false] at this; exact absurd this (by simp)
      · rfl)
  have h10 : countUniquePatients st.events c.user_id c.now 10 = 21 := by
    unfold countUniquePatients
    rw [hfc 10 (by norm_num), List.dedup_eq_self.2 hdist,
      length_filterMap_patient_id _ hmem]
    exact hcount
  have hev := logEvent_snd st c hty
  rw [hev]
  set x3 := check3 (check2 (newEventFromCall (st.event_counter + 1) c)) with hx3def
  have hux : x3.user_id = c.user_id := by
    rw [hx3def, check3_user_id, check2_user_id]; rfl
  set x4 := check4 st.events c.now x3 with hx4def
  have hx4u : x4.user_id = c.user_id := by rw [hx4def, check4_user_id, hux]
  rw [check5_fires st.events c.now x4 (by rw [hx4u, h10]; decide)]
  refine ⟨by rw [h60]; decide, by rw [h10]; decide, rfl, rfl, rfl, ?_⟩
  show some ("Bulk PHI access: "
    ++ toString (countUniquePatients st.events x4.user_id c.now 10)
    ++ " different patients in 10 minutes") = _
  rw [hx4u, h10]
  rfl

/-- The 22nd call of the bulk scenario: a `view_patient` access by
`U1`. -/
def c2wCall : LogCall := mkCall .view_patient "U1" "doctor" (some "P99") [] 1000000

/-- Witness for C2 (amended) at `bulkState`: the recorded event ends as
rule 5 output. -/
theorem c2_bulk_overwrites_excessive_witness :
    ((logEvent bulkState c2wCall).2).event_type = .bulk_data_access :=
  (c2_bulk_overwrites_excessive bulkState c2wCall (by decide) (by decide)
    (by decide) (by decide)).2.2.2.2.1
